import Mathlib

/-!
Shallow embedding of the Edit_Image_App prompt/config pipeline.

Sources embedded:
  * `src/types.ts` — the settings data model (enums and settings records).
  * `src/services/geminiService.ts` — base64/MIME helpers, API-key lookup,
    response extraction, and the three request builders (enhance, ID photo,
    restore).

Prompts are modelled as the ordered list of string segments appended by the
successive `prompt += ...` statements of the source, joined in order; a
conditional `if (flag) prompt += c` statement becomes an `if flag then [c]
else []` group of the list.  Numeric settings interpolated into the prompt
are modelled as `Nat` (the sliders produce bounded non-negative integers).
The network call itself is outside the embedding: each exported operation is
modelled up to the point where the single outbound request (model selector,
image payload, MIME type, instruction text, generation config) is fully
built, returning that request or the error thrown before it is built.
-/

/-- Quality tiers from `src/types.ts` (`EnhancementQuality`), a string enum. -/
inductive EnhancementQuality
  | Q_2K
  | Q_4K
  | Q_8K
deriving DecidableEq, Repr

/-- String value carried by each `EnhancementQuality` member in `src/types.ts`. -/
def EnhancementQuality.label : EnhancementQuality → String
  | .Q_2K => "2K (Fast)"
  | .Q_4K => "4K (Sharp)"
  | .Q_8K => "8K ULTRA HDR"

/-- Processing modes from `src/types.ts` (`EnhancementMode`). -/
inductive EnhancementMode
  | UPSCALE_ONLY
  | ENHANCE_RESTORE
deriving DecidableEq, Repr

/-- ID-photo print sizes from `src/types.ts` (`IDPhotoSize`). -/
inductive IDPhotoSize
  | SIZE_2x3
  | SIZE_3x4
  | SIZE_4x6
  | SIZE_35x45
  | SIZE_5x5
deriving DecidableEq, Repr

/-- ID-photo background colors from `src/types.ts` (`IDPhotoBackground`). -/
inductive IDPhotoBackground
  | WHITE
  | BLUE
  | RED
  | BLACK
  | GRAY
deriving DecidableEq, Repr

/-- Settings record for the enhance pipeline, `EditorSettings` in `src/types.ts`.
Field order follows the source: quality, mode, retouchLevel, sharpenLevel,
upscaleLevel, hyperRealism, colorize, makeup. -/
structure EditorSettings where
  quality : EnhancementQuality
  mode : EnhancementMode
  retouchLevel : Nat
  sharpenLevel : Nat
  upscaleLevel : Nat
  hyperRealism : Bool
  colorize : Bool
  makeup : Bool
deriving DecidableEq, Repr

/-- Settings record for the ID-photo pipeline, `IDPhotoSettings` in `src/types.ts`. -/
structure IDPhotoSettings where
  size : IDPhotoSize
  backgroundColor : IDPhotoBackground
  quality : EnhancementQuality
  skinSmoothing : Nat
  removeBlemishes : Bool
  fixLighting : Bool
deriving DecidableEq, Repr

/-- Settings record for the restore pipeline, `RestorationSettings` in `src/types.ts`. -/
structure RestorationSettings where
  scratchReduction : Nat
  denoiseLevel : Nat
  colorRestoration : Bool
  faceRestoration : Bool
  sharpenArtifacts : Bool
  quality : EnhancementQuality
deriving DecidableEq, Repr

/-- Header prefixes stripped by `cleanBase64` in `src/services/geminiService.ts`:
the anchored regex alternation `png|jpeg|jpg|webp` applied to
`data:image/...;base64,`.  At most one of these can match a given string
(they pairwise differ right after the common `data:image/`), so the regex
replace is the removal of whichever of these prefixes is present. -/
def b64Prefixes : List String :=
  ["data:image/png;base64,", "data:image/jpeg;base64,",
   "data:image/jpg;base64,", "data:image/webp;base64,"]

/-- Model of `cleanBase64`: strip the data-URL header when one of the four
recognized headers is present, otherwise return the input unchanged. -/
def cleanBase64 (dataUrl : String) : String :=
  match b64Prefixes.find? (fun p => p.data.isPrefixOf dataUrl.data) with
  | some p => String.mk (dataUrl.data.drop p.data.length)
  | none => dataUrl

/-- Model of `getMimeType`: the anchored regex
`data:(image\/[a-zA-Z+]+);base64,` returns its captured group, else the
fallback `image/jpeg`.  The character class cannot match `;`, so the greedy
run followed by the literal `;base64,` check is exactly the regex match. -/
def getMimeType (dataUrl : String) : String :=
  if ("data:image/").data.isPrefixOf dataUrl.data then
    let rest := dataUrl.data.drop ("data:image/").data.length
    let run := rest.takeWhile (fun c => c.isAlpha || c == '+')
    if !run.isEmpty && (";base64,").data.isPrefixOf (rest.drop run.length) then
      "image/" ++ String.mk run
    else "image/jpeg"
  else "image/jpeg"

/-- Message thrown by `getApiKey` when `process.env.API_KEY` is absent. -/
def apiKeyMissingMsg : String :=
  "API Key is missing. Please check your environment configuration."

/-- Model of `getApiKey`: the process-wide credential is the `Option String`
argument; a missing credential throws the fixed message. -/
def getApiKey (env : Option String) : Except String String :=
  match env with
  | none => Except.error apiKeyMissingMsg
  | some apiKey => Except.ok apiKey

/-- One `part` of a Gemini response candidate: may carry `inlineData`. -/
structure InlineData where
  data : Option String
deriving DecidableEq, Repr

/-- Response part; `inlineData` may be absent (JavaScript `undefined`). -/
structure ResponsePart where
  inlineData : Option InlineData
  text : Option String
deriving DecidableEq, Repr

/-- The `content` of a candidate; its `parts` list may be absent. -/
structure CandidateContent where
  parts : Option (List ResponsePart)
deriving DecidableEq, Repr

/-- One candidate of the response; its `content` may be absent. -/
structure Candidate where
  content : Option CandidateContent
deriving DecidableEq, Repr

/-- Raw response structure: a possibly absent list of candidates. -/
structure GeminiResponse where
  candidates : Option (List Candidate)
deriving DecidableEq, Repr

/-- Failure modes of `extractImageFromResponse`: the explicit throw
(`No image data returned from Gemini.`) and the implicit JavaScript
`TypeError` raised by `response.candidates[0].content.parts` when
`candidates[0]` or its `content` is `undefined`. -/
inductive ExtractErr
  | noImage
  | typeError
deriving DecidableEq, Repr

/-- Truthiness test `part.inlineData && part.inlineData.data` from the
extraction loop: the data string must be present and non-empty (the empty
string is falsy in JavaScript). -/
def partImageData (p : ResponsePart) : Option String :=
  match p.inlineData with
  | none => none
  | some d =>
    match d.data with
    | none => none
    | some s => if s = "" then none else some s

/-- Model of `extractImageFromResponse`.  The source guard is
`response.candidates && response.candidates[0].content.parts`: an absent
candidates field is falsy (skip to the throw); a present-but-empty
candidates array is truthy, so indexing it yields `undefined` and the
`.content` access raises a `TypeError`; likewise `.parts` on an absent
`content`.  A present first candidate with content but absent `parts` makes
the guard falsy (skip to the throw).  Otherwise the parts are scanned in
order for the first truthy `inlineData.data`, which is returned re-encoded
with the fixed `image/png` header. -/
def extractImageFromResponse (r : GeminiResponse) : Except ExtractErr String :=
  match r.candidates with
  | none => Except.error ExtractErr.noImage
  | some [] => Except.error ExtractErr.typeError
  | some (c :: _) =>
    match c.content with
    | none => Except.error ExtractErr.typeError
    | some ct =>
      match ct.parts with
      | none => Except.error ExtractErr.noImage
      | some ps =>
        match ps.findSome? partImageData with
        | some d => Except.ok ("data:image/png;base64," ++ d)
        | none => Except.error ExtractErr.noImage

/-- Payload of the first image-bearing segment of the first candidate, if
any; `none` when no such segment is reachable by the extraction loop. -/
def firstImageData (r : GeminiResponse) : Option String :=
  match r.candidates with
  | some (c :: _) =>
    match c.content with
    | some ct =>
      match ct.parts with
      | some ps => ps.findSome? partImageData
      | none => none
    | none => none
  | _ => none

/-- Responses on which the source guard itself raises a `TypeError`:
candidates present but empty, or first candidate without `content`. -/
def responseCrashes (r : GeminiResponse) : Bool :=
  match r.candidates with
  | some [] => true
  | some (c :: _) => c.content.isNone
  | _ => false

/-- A synthetic response holding exactly one inline-image segment whose
payload is `B` (used for the round-trip property). -/
def mkSingleImageResponse (B : String) : GeminiResponse :=
  ⟨some [⟨some ⟨some [⟨some ⟨some B⟩, none⟩]⟩⟩]⟩

/-- The concrete response with a present but empty candidates array. -/
def emptyCandidatesResponse : GeminiResponse := ⟨some []⟩

/-- Ordered prompt segments appended by `enhanceImageWithGemini`; one list
element per `prompt += ...` statement of the source, conditionals included
only when their flag is true. -/
def enhanceClauses (s : EditorSettings) : List String :=
  ["Edit this image to improve its quality significantly."]
  ++ (if s.mode = EnhancementMode.ENHANCE_RESTORE then
        [" Restore facial details, fix artifacts, and improve lighting."]
        ++ (if s.hyperRealism then
              [" Maintain realistic skin texture (hyper-realism)."] else [])
        ++ (if s.makeup then
              [" Apply very subtle, natural enhancement to facial features."] else [])
        ++ (if s.colorize then
              [" Ensure colors are vibrant and corrected."] else [])
      else
        [" Focus strictly on upscaling and sharpening the image details without altering facial features."])
  ++ [" The target quality should perceive as " ++ s.quality.label ++ "."]
  ++ [" Sharpening intensity: " ++ Nat.repr s.sharpenLevel ++ "%."]
  ++ [" Return the processed image in high resolution."]

/-- Instruction text of the enhance pipeline. -/
def enhancePrompt (s : EditorSettings) : String := String.join (enhanceClauses s)

/-- Generation-config object: the optional `imageSize` / `aspectRatio`
hints recognized by the outbound call. -/
structure ImageConfig where
  imageSize : Option String
  aspectRatio : Option String
deriving DecidableEq, Repr

/-- The single outbound request built by each operation: model selector,
stripped image payload, its MIME type, instruction text, and the optional
`imageConfig` object (`none` models the empty `config` object `{}` of the
source, which carries no `imageConfig` key). -/
structure GenRequest where
  model : String
  imageData : String
  mimeType : String
  prompt : String
  config : Option ImageConfig
deriving DecidableEq, Repr

/-- Request built by `enhanceImageWithGemini`: `isPro` is
`settings.quality === EnhancementQuality.Q_8K`; the pro model and the
`imageSize: '4K'` hint are used exactly when `isPro` holds. -/
def enhanceRequest (img : String) (s : EditorSettings) : GenRequest :=
  ⟨if s.quality = EnhancementQuality.Q_8K
     then "gemini-3-pro-image-preview" else "gemini-2.5-flash-image",
   cleanBase64 img,
   getMimeType img,
   enhancePrompt s,
   if s.quality = EnhancementQuality.Q_8K
     then some ⟨some "4K", none⟩ else none⟩

/-- Operation `enhanceImageWithGemini`, modelled up to the outbound call:
credential lookup, then request construction. -/
def enhanceImageWithGemini (env : Option String) (img : String)
    (s : EditorSettings) : Except String GenRequest :=
  (getApiKey env).map (fun _ => enhanceRequest img s)

/-- Background descriptions, `bgMap` in `generateIDPhotoWithGemini`. -/
def bgMap : IDPhotoBackground → String
  | .WHITE => "pure white (#FFFFFF)"
  | .BLUE => "standard ID photo blue (#2196F3)"
  | .RED => "standard ID photo red (#D32F2F)"
  | .BLACK => "solid black"
  | .GRAY => "professional gray"

/-- Size descriptions, `sizeMap` in `generateIDPhotoWithGemini`. -/
def sizeMap : IDPhotoSize → String
  | .SIZE_2x3 => "vertical ID photo (2cm x 3cm ratio)"
  | .SIZE_3x4 => "standard vertical ID photo (3cm x 4cm ratio)"
  | .SIZE_4x6 => "large vertical ID photo (4cm x 6cm ratio)"
  | .SIZE_35x45 => "passport photo (3.5cm x 4.5cm ratio)"
  | .SIZE_5x5 => "square visa photo (5cm x 5cm ratio)"

/-- The `apiAspectRatio` computation: `"3:4"` by default, overridden to
`"1:1"` for the 5x5 size. -/
def idPhotoAspectRatio (s : IDPhotoSettings) : String :=
  if s.size = IDPhotoSize.SIZE_5x5 then "1:1" else "3:4"

/-- Ordered prompt segments appended by `generateIDPhotoWithGemini`. -/
def idPhotoClauses (s : IDPhotoSettings) : List String :=
  ["Strictly transform this image into a professional official ID/Passport photo. ",
   "1. CROP & COMPOSITION: Crop the image to a "
     ++ (if idPhotoAspectRatio s = "3:4" then "Vertical Portrait" else "Square")
     ++ " format. ",
   "The face must be perfectly CENTERED and facing forward. ",
   "The head (from top of hair to chin) must occupy 70% to 80% of the vertical height. ",
   "Include the shoulders. Both ears should be visible if possible. Eyes must be level. ",
   "2. BACKGROUND: Remove the original background completely. Replace with a clean, flat "
     ++ bgMap s.backgroundColor ++ " background. No shadows on the background. ",
   "3. ENHANCEMENT: "]
  ++ (if s.removeBlemishes then
        ["Remove acne, moles, spots, and scratches from the face. "] else [])
  ++ ["Smooth skin texture naturally (Intensity: " ++ Nat.repr s.skinSmoothing ++ "%). "]
  ++ (if s.fixLighting then
        ["Fix lighting to be even and soft (studio lighting), removing harsh shadows on the face. "] else [])
  ++ ["4. OUTPUT: High resolution, sharp focus. Intended for printing at "
       ++ sizeMap s.size ++ "."]

/-- Instruction text of the ID-photo pipeline. -/
def idPhotoPrompt (s : IDPhotoSettings) : String := String.join (idPhotoClauses s)

/-- Request built by `generateIDPhotoWithGemini`: fixed flash model, and a
config carrying only the computed aspect ratio. -/
def idPhotoRequest (img : String) (s : IDPhotoSettings) : GenRequest :=
  ⟨"gemini-2.5-flash-image",
   cleanBase64 img,
   getMimeType img,
   idPhotoPrompt s,
   some ⟨none, some (idPhotoAspectRatio s)⟩⟩

/-- Operation `generateIDPhotoWithGemini`, modelled up to the outbound call. -/
def generateIDPhotoWithGemini (env : Option String) (img : String)
    (s : IDPhotoSettings) : Except String GenRequest :=
  (getApiKey env).map (fun _ => idPhotoRequest img s)

/-- Fixed opening clause of the restore prompt. -/
def restoreOpening : String :=
  "Act as a professional photo restoration expert. Restore this old, damaged, or blurry photo. "

/-- Damage-repair clause interpolating the scratch-reduction percentage. -/
def damageClause (n : Nat) : String :=
  "1. DAMAGE REPAIR: Remove scratches, cracks, tears, dust spots, and fold marks. (Intensity: "
  ++ Nat.repr n ++ "%). "

/-- Fixed detail-recovery clause of the restore prompt. -/
def detailClause : String :=
  "2. DETAIL RECOVERY: Deblur the image and sharpen details specifically on clothing and background textures. "

/-- Conditional face-restoration clause of the restore prompt. -/
def faceClause : String :=
  "Use advanced facial restoration to recover facial features, eyes, and skin texture. CRITICAL: Do NOT alter the person\x27s identity or facial structure. Keep original angles and features authentic. "

/-- Color-handling clause used when `colorRestoration` is true. -/
def colorizeClause : String :=
  "3. COLORIZATION: If the photo is B&W or sepia, strictly colorize it with natural, historically accurate colors. If it\x27s color but faded, restore vibrancy. "

/-- Color-handling clause used when `colorRestoration` is false. -/
def contrastClause : String :=
  "3. COLOR: Keep the original color profile (B&W or Sepia) but improve contrast and remove yellow aging stains. "

/-- Final quality clause interpolating the denoise percentage. -/
def qualityClause (n : Nat) : String :=
  "4. QUALITY: High fidelity restoration. Reduce noise level by " ++ Nat.repr n ++ "%."

/-- Ordered prompt segments appended by `restoreImageWithGemini`. -/
def restoreClauses (s : RestorationSettings) : List String :=
  [restoreOpening, damageClause s.scratchReduction, detailClause]
  ++ (if s.faceRestoration then [faceClause] else [])
  ++ [if s.colorRestoration then colorizeClause else contrastClause]
  ++ [qualityClause s.denoiseLevel]

/-- Instruction text of the restore pipeline. -/
def restorePrompt (s : RestorationSettings) : String := String.join (restoreClauses s)

/-- Request built by `restoreImageWithGemini`: fixed pro model and fixed
`imageSize: '4K'` hint. -/
def restoreRequest (img : String) (s : RestorationSettings) : GenRequest :=
  ⟨"gemini-3-pro-image-preview",
   cleanBase64 img,
   getMimeType img,
   restorePrompt s,
   some ⟨some "4K", none⟩⟩

/-- Operation `restoreImageWithGemini`, modelled up to the outbound call. -/
def restoreImageWithGemini (env : Option String) (img : String)
    (s : RestorationSettings) : Except String GenRequest :=
  (getApiKey env).map (fun _ => restoreRequest img s)

/-- Stated from the spec sentence behind claim C6, for comparison with the
source-derived `enhancePrompt`: the claimed concatenation for the
enhance-and-restore mode — opening sentence, restoration clause,
hyper-realism clause iff its flag, colorize clause iff its flag, the
quality-label clause, the sharpen-intensity clause, and the closing clause.
The source also appends a makeup clause, which this claimed form omits. -/
def claimedEnhanceRestorePrompt (s : EditorSettings) : String :=
  "Edit this image to improve its quality significantly."
  ++ " Restore facial details, fix artifacts, and improve lighting."
  ++ (if s.hyperRealism then " Maintain realistic skin texture (hyper-realism)." else "")
  ++ (if s.colorize then " Ensure colors are vibrant and corrected." else "")
  ++ (" The target quality should perceive as " ++ s.quality.label ++ ".")
  ++ (" Sharpening intensity: " ++ Nat.repr s.sharpenLevel ++ "%.")
  ++ " Return the processed image in high resolution."

/-- Appending the empty string on the right is the identity. -/
theorem str_append_empty (s : String) : s ++ "" = s := by
  cases s
  show String.mk _ = String.mk _
  simp [String.append]

/-- Appending the empty string on the left is the identity. -/
theorem str_empty_append (s : String) : "" ++ s = s := by
  cases s
  rfl

/-- String concatenation is associative. -/
theorem str_append_assoc (a b c : String) : (a ++ b) ++ c = a ++ (b ++ c) := by
  cases a
  cases b
  cases c
  show String.mk _ = String.mk _
  simp [String.append, List.append_assoc]

/-- Head character of the damage-repair clause, for any interpolated value. -/
theorem damageClause_head (n : Nat) : (damageClause n).data.head? = some '1' := by
  rw [damageClause, String.data_append, String.data_append]
  rfl

/-- Head character of the final quality clause, for any interpolated value. -/
theorem qualityClause_head (n : Nat) : (qualityClause n).data.head? = some '4' := by
  rw [qualityClause, String.data_append]
  rfl

/-- The damage clause never coincides with the colorization clause. -/
theorem damageClause_ne_colorize (n : Nat) : damageClause n ≠ colorizeClause := by
  intro h
  have h1 : colorizeClause.data.head? = some '3' := rfl
  rw [← h, damageClause_head n] at h1
  exact absurd h1 (by decide)

/-- The damage clause never coincides with the contrast clause. -/
theorem damageClause_ne_contrast (n : Nat) : damageClause n ≠ contrastClause := by
  intro h
  have h1 : contrastClause.data.head? = some '3' := rfl
  rw [← h, damageClause_head n] at h1
  exact absurd h1 (by decide)

/-- The quality clause never coincides with the colorization clause. -/
theorem qualityClause_ne_colorize (n : Nat) : qualityClause n ≠ colorizeClause := by
  intro h
  have h1 : colorizeClause.data.head? = some '3' := rfl
  rw [← h, qualityClause_head n] at h1
  exact absurd h1 (by decide)

/-- The quality clause never coincides with the contrast clause. -/
theorem qualityClause_ne_contrast (n : Nat) : qualityClause n ≠ contrastClause := by
  intro h
  have h1 : contrastClause.data.head? = some '3' := rfl
  rw [← h, qualityClause_head n] at h1
  exact absurd h1 (by decide)

/-- C1: for every EditorSettings, the enhance operation selects the
higher-capability model variant and passes a config with the `imageSize`
`4K` hint exactly when the quality tier is the top `8K ULTRA HDR` tier,
and for every other tier selects the faster variant with no config. -/
theorem enhance_model_selection (img : String) (s : EditorSettings) :
    (s.quality = EnhancementQuality.Q_8K →
      (enhanceRequest img s).model = "gemini-3-pro-image-preview" ∧
      (enhanceRequest img s).config = some ⟨some "4K", none⟩) ∧
    (s.quality ≠ EnhancementQuality.Q_8K →
      (enhanceRequest img s).model = "gemini-2.5-flash-image" ∧
      (enhanceRequest img s).config = none) := by
  constructor
  · intro h
    simp [enhanceRequest, h]
  · intro h
    simp [enhanceRequest, h]

/-- Witness for C1 at the top tier and at a lower tier. -/
theorem enhance_model_selection_witness :
    ((enhanceRequest "d" ⟨EnhancementQuality.Q_8K, EnhancementMode.UPSCALE_ONLY,
        0, 50, 0, false, false, false⟩).model = "gemini-3-pro-image-preview" ∧
     (enhanceRequest "d" ⟨EnhancementQuality.Q_8K, EnhancementMode.UPSCALE_ONLY,
        0, 50, 0, false, false, false⟩).config = some ⟨some "4K", none⟩) ∧
    ((enhanceRequest "d" ⟨EnhancementQuality.Q_2K, EnhancementMode.UPSCALE_ONLY,
        0, 50, 0, false, false, false⟩).model = "gemini-2.5-flash-image" ∧
     (enhanceRequest "d" ⟨EnhancementQuality.Q_2K, EnhancementMode.UPSCALE_ONLY,
        0, 50, 0, false, false, false⟩).config = none) :=
  ⟨(enhance_model_selection "d" _).1 rfl,
   (enhance_model_selection "d" _).2 (by decide)⟩

/-- C4: for every RestorationSettings, the restore operation selects the
higher-capability model variant with the `imageSize` `4K` hint, and the
quality tier has no influence: replacing it yields an identical request. -/
theorem restore_model_config_quality_ignored (img : String)
    (sr dn : Nat) (cr fr sa : Bool) (q q2 : EnhancementQuality) :
    (restoreRequest img ⟨sr, dn, cr, fr, sa, q⟩).model = "gemini-3-pro-image-preview" ∧
    (restoreRequest img ⟨sr, dn, cr, fr, sa, q⟩).config = some ⟨some "4K", none⟩ ∧
    restoreRequest img ⟨sr, dn, cr, fr, sa, q⟩ = restoreRequest img ⟨sr, dn, cr, fr, sa, q2⟩ :=
  ⟨rfl, rfl, rfl⟩

/-- C8: with the credential absent, each of the three operations fails with
the fixed missing-API-key message, before any request is built. -/
theorem api_key_missing_fails_fast (img : String) (s1 : EditorSettings)
    (s2 : IDPhotoSettings) (s3 : RestorationSettings) :
    enhanceImageWithGemini none img s1 = Except.error apiKeyMissingMsg ∧
    generateIDPhotoWithGemini none img s2 = Except.error apiKeyMissingMsg ∧
    restoreImageWithGemini none img s3 = Except.error apiKeyMissingMsg :=
  ⟨rfl, rfl, rfl⟩

/-- C9: the enhance request is unchanged when only `retouchLevel` and
`upscaleLevel` differ — those two fields influence no output. -/
theorem enhance_retouch_upscale_noninterference (img : String)
    (q : EnhancementQuality) (m : EnhancementMode) (rl sl ul rl2 ul2 : Nat)
    (hr cz mu : Bool) :
    enhanceRequest img ⟨q, m, rl, sl, ul, hr, cz, mu⟩ =
    enhanceRequest img ⟨q, m, rl2, sl, ul2, hr, cz, mu⟩ :=
  rfl

/-- C10: the restore request is unchanged when only `sharpenArtifacts`
differs — that toggle influences no output. -/
theorem restore_sharpen_toggle_noninterference (img : String)
    (sr dn : Nat) (cr fr sa sa2 : Bool) (q : EnhancementQuality) :
    restoreRequest img ⟨sr, dn, cr, fr, sa, q⟩ =
    restoreRequest img ⟨sr, dn, cr, fr, sa2, q⟩ :=
  rfl

/-- C3: for every IDPhotoSettings, the ID-photo operation selects the
faster model variant; the config aspect ratio is `1:1` exactly when the
size is the 5x5 option and `3:4` for every other size; and the config
depends only on the size field. -/
theorem idphoto_model_and_aspect (img : String) (s t : IDPhotoSettings) :
    (idPhotoRequest img s).model = "gemini-2.5-flash-image" ∧
    ((idPhotoRequest img s).config = some ⟨none, some "1:1"⟩ ↔
      s.size = IDPhotoSize.SIZE_5x5) ∧
    (s.size ≠ IDPhotoSize.SIZE_5x5 →
      (idPhotoRequest img s).config = some ⟨none, some "3:4"⟩) ∧
    (s.size = t.size → (idPhotoRequest img s).config = (idPhotoRequest img t).config) := by
  refine ⟨rfl, ?_, ?_, ?_⟩
  · cases hs : s.size <;> simp [idPhotoRequest, idPhotoAspectRatio, hs]
  · intro h
    simp [idPhotoRequest, idPhotoAspectRatio, h]
  · intro h
    simp [idPhotoRequest, idPhotoAspectRatio, h]

/-- Witness for C3 at the 5x5 size and at the passport size. -/
theorem idphoto_model_and_aspect_witness :
    (idPhotoRequest "d" ⟨IDPhotoSize.SIZE_5x5, IDPhotoBackground.BLUE,
       EnhancementQuality.Q_2K, 35, true, true⟩).config = some ⟨none, some "1:1"⟩ ∧
    (idPhotoRequest "d" ⟨IDPhotoSize.SIZE_35x45, IDPhotoBackground.WHITE,
       EnhancementQuality.Q_2K, 35, true, true⟩).config = some ⟨none, some "3:4"⟩ ∧
    (idPhotoRequest "d" ⟨IDPhotoSize.SIZE_3x4, IDPhotoBackground.RED,
       EnhancementQuality.Q_8K, 0, false, false⟩).config =
      (idPhotoRequest "d" ⟨IDPhotoSize.SIZE_3x4, IDPhotoBackground.GRAY,
       EnhancementQuality.Q_2K, 90, true, true⟩).config :=
  ⟨(idphoto_model_and_aspect "d" ⟨IDPhotoSize.SIZE_5x5, IDPhotoBackground.BLUE,
       EnhancementQuality.Q_2K, 35, true, true⟩ ⟨IDPhotoSize.SIZE_5x5, IDPhotoBackground.BLUE,
       EnhancementQuality.Q_2K, 35, true, true⟩).2.1.mpr rfl,
   (idphoto_model_and_aspect "d" ⟨IDPhotoSize.SIZE_35x45, IDPhotoBackground.WHITE,
       EnhancementQuality.Q_2K, 35, true, true⟩ ⟨IDPhotoSize.SIZE_35x45, IDPhotoBackground.WHITE,
       EnhancementQuality.Q_2K, 35, true, true⟩).2.2.1 (by decide),
   (idphoto_model_and_aspect "d" ⟨IDPhotoSize.SIZE_3x4, IDPhotoBackground.RED,
       EnhancementQuality.Q_8K, 0, false, false⟩ ⟨IDPhotoSize.SIZE_3x4, IDPhotoBackground.GRAY,
       EnhancementQuality.Q_2K, 90, true, true⟩).2.2.2 rfl⟩

/-- C5: for every RestorationSettings, exactly one color-handling clause is
among the appended segments of the restore instruction: the colorization
clause exactly when `colorRestoration` is true, the contrast/stain-removal
clause exactly when it is false, and the two clauses are distinct. -/
theorem restore_color_clause_exclusive (s : RestorationSettings) :
    (colorizeClause ∈ restoreClauses s ↔ s.colorRestoration = true) ∧
    (contrastClause ∈ restoreClauses s ↔ s.colorRestoration = false) ∧
    colorizeClause ≠ contrastClause := by
  obtain ⟨sr, dn, cr, fr, sa, q⟩ := s
  refine ⟨?_, ?_, by decide⟩
  · cases cr <;> cases fr <;>
      simp [restoreClauses, damageClause_ne_colorize, qualityClause_ne_colorize,
        (damageClause_ne_colorize sr).symm, (qualityClause_ne_colorize dn).symm] <;>
      decide
  · cases cr <;> cases fr <;>
      simp [restoreClauses, damageClause_ne_contrast, qualityClause_ne_contrast,
        (damageClause_ne_contrast sr).symm, (qualityClause_ne_contrast dn).symm] <;>
      decide

/-- Counterexample to C6 as stated: with `makeup = true` the built
instruction also carries the makeup clause, so it differs from the claimed
concatenation, which lists no makeup clause. -/
theorem enhance_prompt_claim_counterexample :
    enhancePrompt ⟨EnhancementQuality.Q_4K, EnhancementMode.ENHANCE_RESTORE,
        0, 30, 0, false, false, true⟩ ≠
      claimedEnhanceRestorePrompt ⟨EnhancementQuality.Q_4K,
        EnhancementMode.ENHANCE_RESTORE, 0, 30, 0, false, false, true⟩ := by
  decide

/-- C6 (amended): for every EditorSettings in enhance-and-restore mode, the
instruction equals the fixed opening sentence, the restoration clause, the
hyper-realism clause iff its flag, the makeup clause iff its flag, the
colorize clause iff its flag, the quality-label clause, the
sharpen-intensity clause, and the closing clause, in that order; false
flags contribute nothing. -/
theorem enhance_prompt_concatenation (s : EditorSettings)
    (h : s.mode = EnhancementMode.ENHANCE_RESTORE) :
    enhancePrompt s =
      "Edit this image to improve its quality significantly."
      ++ " Restore facial details, fix artifacts, and improve lighting."
      ++ (if s.hyperRealism then " Maintain realistic skin texture (hyper-realism)." else "")
      ++ (if s.makeup then " Apply very subtle, natural enhancement to facial features." else "")
      ++ (if s.colorize then " Ensure colors are vibrant and corrected." else "")
      ++ (" The target quality should perceive as " ++ s.quality.label ++ ".")
      ++ (" Sharpening intensity: " ++ Nat.repr s.sharpenLevel ++ "%.")
      ++ " Return the processed image in high resolution." := by
  obtain ⟨q, m, rl, sl, ul, hr, cz, mu⟩ := s
  subst h
  cases hr <;> cases mu <;> cases cz <;>
    simp [enhancePrompt, enhanceClauses, String.join, str_empty_append,
      str_append_empty, str_append_assoc]

/-- Witness for the amended C6 with every conditional flag set. -/
theorem enhance_prompt_concatenation_witness :
    enhancePrompt ⟨EnhancementQuality.Q_4K, EnhancementMode.ENHANCE_RESTORE,
        0, 30, 0, true, true, true⟩ =
      "Edit this image to improve its quality significantly."
      ++ " Restore facial details, fix artifacts, and improve lighting."
      ++ " Maintain realistic skin texture (hyper-realism)."
      ++ " Apply very subtle, natural enhancement to facial features."
      ++ " Ensure colors are vibrant and corrected."
      ++ (" The target quality should perceive as " ++ "4K (Sharp)" ++ ".")
      ++ (" Sharpening intensity: " ++ "30" ++ "%.")
      ++ " Return the processed image in high resolution." :=
  enhance_prompt_concatenation ⟨EnhancementQuality.Q_4K,
    EnhancementMode.ENHANCE_RESTORE, 0, 30, 0, true, true, true⟩ rfl

/-- Counterexample to C2 as stated: the response whose candidates array is
present but empty has no image-bearing segment, yet extraction does not
fail with the no-image condition (the indexing guard raises a type error). -/
theorem extract_empty_candidates_counterexample :
    firstImageData emptyCandidatesResponse = none ∧
    extractImageFromResponse emptyCandidatesResponse ≠
      Except.error ExtractErr.noImage := by
  refine ⟨rfl, fun h => ?_⟩
  have h2 : extractImageFromResponse emptyCandidatesResponse =
      Except.error ExtractErr.typeError := rfl
  rw [h2] at h
  exact absurd (Except.error.inj h) (by decide)

/-- C2 (amended): extraction returns the payload of the first image-bearing
segment of the first candidate, re-encoded with the fixed `image/png`
header, ignoring later segments; when no such segment exists it fails — with
the no-image condition, except that an empty candidates array or a first
candidate without content raises a type error instead. -/
theorem extract_first_image_contract (r : GeminiResponse) :
    (responseCrashes r = true →
      extractImageFromResponse r = Except.error ExtractErr.typeError) ∧
    (responseCrashes r = false → ∀ d : String, firstImageData r = some d →
      extractImageFromResponse r = Except.ok ("data:image/png;base64," ++ d)) ∧
    (responseCrashes r = false → firstImageData r = none →
      extractImageFromResponse r = Except.error ExtractErr.noImage) := by
  obtain ⟨cands⟩ := r
  match cands with
  | none =>
    exact ⟨fun h => absurd h (by decide), fun _ d hd => absurd hd (by simp [firstImageData]),
      fun _ _ => rfl⟩
  | some [] =>
    exact ⟨fun _ => rfl, fun h => absurd h (by decide), fun h => absurd h (by decide)⟩
  | some (c :: cs) =>
    obtain ⟨ct⟩ := c
    match ct with
    | none =>
      exact ⟨fun _ => rfl, fun h => absurd h (by simp [responseCrashes]),
        fun h => absurd h (by simp [responseCrashes])⟩
    | some ⟨ps⟩ =>
      match ps with
      | none =>
        exact ⟨fun h => absurd h (by simp [responseCrashes]),
          fun _ d hd => absurd hd (by simp [firstImageData]), fun _ _ => rfl⟩
      | some parts =>
        refine ⟨fun h => absurd h (by simp [responseCrashes]), ?_, ?_⟩
        · intro _ d hd
          have hf : parts.findSome? partImageData = some d := hd
          simp [extractImageFromResponse, hf]
        · intro _ hd
          have hf : parts.findSome? partImageData = none := hd
          simp [extractImageFromResponse, hf]

/-- Witness for the amended C2: the type-error case, a single-segment
success, and the absent-candidates no-image case. -/
theorem extract_first_image_contract_witness :
    extractImageFromResponse emptyCandidatesResponse =
      Except.error ExtractErr.typeError ∧
    extractImageFromResponse (mkSingleImageResponse "QUJD") =
      Except.ok ("data:image/png;base64," ++ "QUJD") ∧
    extractImageFromResponse ⟨none⟩ = Except.error ExtractErr.noImage :=
  ⟨(extract_first_image_contract emptyCandidatesResponse).1 rfl,
   (extract_first_image_contract (mkSingleImageResponse "QUJD")).2.1 rfl "QUJD" (by decide),
   (extract_first_image_contract ⟨none⟩).2.2 rfl rfl⟩

/-- Counterexample to C7 as stated for the empty payload: its inline data
is falsy, so the segment is skipped and extraction fails instead of
yielding a textual encoding. -/
theorem roundtrip_empty_payload_counterexample :
    extractImageFromResponse (mkSingleImageResponse "") =
      Except.error ExtractErr.noImage ∧
    ∀ s : String, extractImageFromResponse (mkSingleImageResponse "") ≠ Except.ok s := by
  refine ⟨rfl, fun s h => ?_⟩
  have h2 : extractImageFromResponse (mkSingleImageResponse "") =
      Except.error ExtractErr.noImage := rfl
  rw [h2] at h
  exact Except.noConfusion h

/-- C7 (amended): for every non-empty payload `B`, extracting from the
synthetic single-segment response yields the `image/png`-tagged textual
encoding of `B`, and stripping the header with `cleanBase64` reproduces
exactly `B`. -/
theorem extract_clean_roundtrip (B : String) (hB : B ≠ "") :
    extractImageFromResponse (mkSingleImageResponse B) =
      Except.ok ("data:image/png;base64," ++ B) ∧
    cleanBase64 ("data:image/png;base64," ++ B) = B := by
  constructor
  · simp [mkSingleImageResponse, extractImageFromResponse, partImageData, hB]
  · have hd : ("data:image/png;base64," ++ B).data =
        ("data:image/png;base64,").data ++ B.data := String.data_append _ _
    have hp : (("data:image/png;base64,").data.isPrefixOf
        ("data:image/png;base64," ++ B).data) = true := by
      rw [hd, List.isPrefixOf_iff_prefix]
      exact List.prefix_append _ _
    have hfind : b64Prefixes.find?
        (fun p => p.data.isPrefixOf ("data:image/png;base64," ++ B).data) =
        some "data:image/png;base64," := by
      simp [b64Prefixes, List.find?, hp]
    rw [cleanBase64, hfind, hd]
    show String.mk (List.drop ("data:image/png;base64,").data.length
      (("data:image/png;base64,").data ++ B.data)) = B
    rw [List.drop_left]

/-- Witness for the amended C7 at a concrete non-empty payload. -/
theorem extract_clean_roundtrip_witness :
    ("QUJDRA==" : String) ≠ "" ∧
    extractImageFromResponse (mkSingleImageResponse "QUJDRA==") =
      Except.ok ("data:image/png;base64," ++ "QUJDRA==") ∧
    cleanBase64 ("data:image/png;base64," ++ "QUJDRA==") = "QUJDRA==" :=
  ⟨by decide,
   (extract_clean_roundtrip "QUJDRA==" (by decide)).1,
   (extract_clean_roundtrip "QUJDRA==" (by decide)).2⟩

/-- Witness for C5: each color-handling clause is present under its flag. -/
theorem restore_color_clause_exclusive_witness :
    colorizeClause ∈ restoreClauses ⟨40, 20, true, true, false, EnhancementQuality.Q_2K⟩ ∧
    contrastClause ∈ restoreClauses ⟨40, 20, false, false, true, EnhancementQuality.Q_2K⟩ :=
  ⟨(restore_color_clause_exclusive ⟨40, 20, true, true, false,
      EnhancementQuality.Q_2K⟩).1.mpr rfl,
   (restore_color_clause_exclusive ⟨40, 20, false, false, true,
      EnhancementQuality.Q_2K⟩).2.1.mpr rfl⟩
